import Mathlib

/-!
Shallow embedding of the multi-exchange order-flow consensus engine
(`server/python/multi_exchange_orderflow.py`, with the trade-level variant in
`server/python/binance_orderflow.py`).  Python floats are modelled as exact
rationals (`ℚ`), timestamps as integers (`ℤ`, Python `//` is `Int.fdiv`),
and the external venue transport as an explicit argument (an `Except` value
standing for the outcome of the single HTTP call the source makes).
-/

/-- Static venue configuration entry, mirroring the `EXCHANGES` dict. -/
structure ExchangeInfo where
  id : String
  name : String
  priority : ℚ
  has_taker_volume : Bool
deriving DecidableEq

/-- The `EXCHANGES` table (multi_exchange_orderflow.py lines 12-19). -/
def EXCHANGES : List ExchangeInfo :=
  [ ⟨"binanceus", "Binance US", 1, true⟩,
    ⟨"okx", "OKX", 9/10, true⟩,
    ⟨"gateio", "Gate.io", 85/100, false⟩,
    ⟨"kraken", "Kraken", 8/10, false⟩,
    ⟨"kucoin", "KuCoin", 75/100, false⟩,
    ⟨"coinbase", "Coinbase", 7/10, false⟩ ]

/-- `DIVERGENCE_THRESHOLD = 0.20` (line 21). -/
def DIVERGENCE_THRESHOLD : ℚ := 1/5

/-- `MIN_EXCHANGES_REQUIRED = 2` (line 22). -/
def MIN_EXCHANGES_REQUIRED : ℕ := 2

/-- Table lookup `EXCHANGES[exchange_id]`. Total with `none` where the
source would raise `KeyError`; the engine only ever passes ids present in
the table. -/
def lookupExchange (exchange_id : String) : Option ExchangeInfo :=
  EXCHANGES.find? (fun e => decide (e.id = exchange_id))

/-- `EXCHANGES[exchange_id]['priority']` (default 0 on a missing id, which
the source never exercises). -/
def priorityOf (exchange_id : String) : ℚ :=
  ((lookupExchange exchange_id).map (fun e => e.priority)).getD 0

/-- `EXCHANGES[exchange_id]['name']` (default: the id itself on a missing
id, which the source never exercises). -/
def nameOf (exchange_id : String) : String :=
  ((lookupExchange exchange_id).map (fun e => e.name)).getD exchange_id

/-- `symbol.upper().replace('-', '')`: uppercase every character and delete
all dashes. -/
def upperNoDash (s : String) : String :=
  String.mk ((s.data.map Char.toUpper).filter (fun c => c ≠ '-'))

/-- Python `str.endswith`, on the character list. -/
def endsWithStr (s suffix : String) : Bool :=
  suffix.data.isSuffixOf s.data

/-- Python `s[:-n]` (drop the last `n` characters). -/
def dropRightStr (s : String) (n : ℕ) : String :=
  String.mk (s.data.take (s.data.length - n))

/-- The per-venue format table applied after quote detection
(multi_exchange_orderflow.py lines 40-53): the if/elif chain on
`exchange_id`, falling through to `base + quote`. -/
def formatPair (base quote exchange_id : String) : String :=
  if exchange_id == "binanceus" then base ++ "USDT"
  else if exchange_id == "okx" then base ++ "/USDT"
  else if exchange_id == "gateio" then base ++ "/USDT"
  else if exchange_id == "kraken" then base ++ "/USD"
  else if exchange_id == "kucoin" then base ++ "-USDT"
  else if exchange_id == "coinbase" then base ++ "-USD"
  else base ++ quote

/-- `normalize_symbol` (multi_exchange_orderflow.py lines 27-53):
uppercase, strip dashes, detect the quote suffix (`USDT` before `USD`),
and apply the per-venue format table; inputs with an unrecognized quote
suffix return the transformed (uppercased, dash-stripped) string. -/
def normalize_symbol (symbol : String) (exchange_id : String) : String :=
  let symbol := upperNoDash symbol
  if endsWithStr symbol "USDT" then
    formatPair (dropRightStr symbol 4) "USDT" exchange_id
  else if endsWithStr symbol "USD" then
    formatPair (dropRightStr symbol 3) "USD" exchange_id
  else symbol

/-- Parsed candle record shared by every fetch path (the dict built at
lines 107-117 / 177-187). -/
structure Candle where
  timestamp : ℤ
  openP : ℚ
  highP : ℚ
  lowP : ℚ
  closeP : ℚ
  volume : ℚ
  buy_volume : ℚ
  sell_volume : ℚ
  delta : ℚ
deriving DecidableEq

/-- Raw ccxt OHLCV row `[timestamp, open, high, low, close, volume]`; the
volume entry is optional, mirroring `candle[5] if len(candle) > 5 else 0`. -/
structure RawOhlcv where
  timestamp : ℤ
  openP : ℚ
  highP : ℚ
  lowP : ℚ
  closeP : ℚ
  vol? : Option ℚ
deriving DecidableEq

/-- Parsing of one ccxt OHLCV row (multi_exchange_orderflow.py lines
98-117): a flat 50/50 buy/sell split of the reported volume, used for every
venue on the generic ccxt path regardless of its `has_taker_volume` flag. -/
def parse_ccxt_candle (r : RawOhlcv) : Candle :=
  let volume := r.vol?.getD 0
  let buy_volume := volume * (1/2)
  let sell_volume := volume * (1/2)
  { timestamp := r.timestamp
    openP := r.openP
    highP := r.highP
    lowP := r.lowP
    closeP := r.closeP
    volume := volume
    buy_volume := buy_volume
    sell_volume := sell_volume
    delta := buy_volume - sell_volume }

/-- The parse loop over the fetched `ohlcv` list (lines 97-117). -/
def parse_ccxt_candles (rs : List RawOhlcv) : List Candle :=
  rs.map parse_ccxt_candle

/-- Per-venue fetch metadata (the `metadata` dict, lines 57-65).
`response_time_ms` is wall-clock data carried opaquely (the embedding sets
it to 0 where the source reads a clock). -/
structure FetchMeta where
  exchange : String
  exchange_id : String
  success : Bool
  candles_count : ℕ
  error : Option String
  response_time_ms : ℚ
  data_quality : String
deriving DecidableEq

/-- `fetch_ohlcv_from_exchange` (multi_exchange_orderflow.py lines 55-132),
with the single `exchange.fetch_ohlcv` transport call made explicit as an
`Except` argument: `.error e` is the exception path (lines 127-132),
`.ok ohlcv` the normal path.  The source makes exactly one transport call:
there is no retry loop. -/
def fetch_ohlcv_from_exchange (exchange_id : String)
    (transport : Except String (List RawOhlcv)) : List Candle × FetchMeta :=
  match transport with
  | .error e =>
      ([], { exchange := nameOf exchange_id
             exchange_id := exchange_id
             success := false
             candles_count := 0
             error := some e
             response_time_ms := 0
             data_quality := "error" })
  | .ok ohlcv =>
      if 0 < ohlcv.length then
        (parse_ccxt_candles ohlcv,
         { exchange := nameOf exchange_id
           exchange_id := exchange_id
           success := true
           candles_count := ohlcv.length
           error := none
           response_time_ms := 0
           data_quality := "valid" })
      else
        ([], { exchange := nameOf exchange_id
               exchange_id := exchange_id
               success := false
               candles_count := ohlcv.length
               error := some "No candles returned"
               response_time_ms := 0
               data_quality := "empty" })

/-- A venue's transport behaviour across hypothetical successive attempts,
as a list of per-attempt outcomes.  Because the source issues exactly one
`exchange.fetch_ohlcv` call per fetch (no retry loop anywhere in the file),
running the fetch against such a venue consumes only the first attempt;
later attempts are never reached. -/
def fetchWithOracle (exchange_id : String)
    (attempts : List (Except String (List RawOhlcv))) : List Candle × FetchMeta :=
  fetch_ohlcv_from_exchange exchange_id (attempts.headD (.error "timeout"))

/-- Timestamp normalization to seconds (lines 299-303 and 318-320):
`if ts > 10000000000: ts = ts // 1000` (Python `//` is floor division). -/
def normTs (ts : ℤ) : ℤ :=
  if 10000000000 < ts then Int.fdiv ts 1000 else ts

/-- Ordered insertion, used to model Python `sorted`. -/
def insertSorted (x : ℤ) : List ℤ → List ℤ
  | [] => [x]
  | y :: ys => if x ≤ y then x :: y :: ys else y :: insertSorted x ys

/-- Insertion sort on integers, the model of Python `sorted`. -/
def sortInts : List ℤ → List ℤ
  | [] => []
  | x :: xs => insertSorted x (sortInts xs)

/-- The `all_timestamps` set (lines 296-303): every candle timestamp over
all venues, normalized to seconds, with set semantics via `dedup`. -/
def collectTimestamps (data : List (String × List Candle)) : List ℤ :=
  ((data.map (fun p => p.2.map (fun c => normTs c.timestamp))).flatten).dedup

/-- Exact-rational `statistics.mean`: sum divided by length (the source
never calls it on an empty list on a live path). -/
def meanQ (xs : List ℚ) : ℚ :=
  xs.sum / xs.length

/-- Exact-rational sample variance, the square of `statistics.stdev`
(denominator `n - 1`); meaningful only for two or more samples, exactly
where the source calls `stdev`. -/
def sampleVar (xs : List ℚ) : ℚ :=
  ((xs.map (fun x => (x - meanQ xs)^2)).sum) / ((xs.length : ℚ) - 1)

/-- The cross-venue divergence flag (lines 347-355): false for fewer than
two participating deltas or a zero mean; otherwise true iff
`stdev(deltas) / |mean| > DIVERGENCE_THRESHOLD`.  The comparison is stated
in its exact-real squared form `threshold² · mean² < sampleVar`, which over
the reals is equivalent to the source's float comparison (both sides of the
original inequality are nonnegative, and square roots of rationals are in
general irrational, so the squared form is the computable embedding). -/
def hasDivergenceOf (deltas : List ℚ) : Bool :=
  if 2 ≤ deltas.length then
    if meanQ deltas ≠ 0 then
      decide (DIVERGENCE_THRESHOLD^2 * (meanQ deltas)^2 < sampleVar deltas)
    else false
  else false

/-- One entry of `exchange_participation` (lines 332-336). -/
structure Participation where
  exchange : String
  delta : ℚ
  volume : ℚ
deriving DecidableEq

/-- One aggregated bucket row (the dict built at lines 357-370).  The
source's `variance` field holds the coefficient of variation
`stdev/|mean|`; its exact-real square `cv_sq = sampleVar/mean²` is stored
instead (see `hasDivergenceOf`). -/
structure BucketRow where
  delta : ℚ
  volume : ℚ
  buy_volume : ℚ
  sell_volume : ℚ
  exchange_count : ℕ
  exchanges : List Participation
  confidence : ℚ
  has_divergence : Bool
  cv_sq : ℚ
  deltas : List (String × ℚ)
deriving DecidableEq

/-- The inner per-venue scan for one timestamp (lines 315-338): for each
venue in order, the first candle whose normalized timestamp matches
(`break` after the first hit). -/
def bucketHits (data : List (String × List Candle)) (timestamp : ℤ) :
    List (String × Candle) :=
  data.filterMap (fun p =>
    (p.2.find? (fun c => decide (normTs c.timestamp = timestamp))).map (fun c => (p.1, c)))

/-- One iteration of the aggregation loop body (lines 307-370) for a given
bucket timestamp: `none` when no venue participates (the `if
exchange_participation:` guard).  Note the consensus `delta` is
`total_delta / len(exchange_participation)` — the priority-weighted sum
divided by the participant COUNT; the `total_weight` computed at lines
342-344 is never used (dead code). -/
def bucketRow (data : List (String × List Candle)) (timestamp : ℤ) :
    Option BucketRow :=
  let hits := bucketHits data timestamp
  if hits.isEmpty then none
  else
    let total_delta := (hits.map (fun pc => pc.2.delta * priorityOf pc.1)).sum
    let deltas := hits.map (fun pc => pc.2.delta)
    some
      { delta := total_delta / (hits.length : ℚ)
        volume := (hits.map (fun pc => pc.2.volume)).sum
        buy_volume := (hits.map (fun pc => pc.2.buy_volume)).sum
        sell_volume := (hits.map (fun pc => pc.2.sell_volume)).sum
        exchange_count := hits.length
        exchanges := hits.map (fun pc => ⟨nameOf pc.1, pc.2.delta, pc.2.volume⟩)
        confidence := (hits.length : ℚ) / (EXCHANGES.length : ℚ)
        has_divergence := hasDivergenceOf deltas
        cv_sq := if 2 ≤ deltas.length ∧ meanQ deltas ≠ 0
                 then sampleVar deltas / (meanQ deltas)^2 else 0
        deltas := hits.map (fun pc => (nameOf pc.1, pc.2.delta)) }

/-- `aggregate_multi_exchange_data` (lines 292-372): one row per sorted
bucket timestamp that has at least one participating venue, keyed by the
normalized timestamp. -/
def aggregate_multi_exchange_data (data : List (String × List Candle)) :
    List (ℤ × BucketRow) :=
  (sortInts (collectTimestamps data)).filterMap
    (fun t => (bucketRow data t).map (fun r => (t, r)))

/-- Python banker's rounding (`round`, ties to even) of `x` to an integer. -/
def roundHalfEven (x : ℚ) : ℤ :=
  let f := ⌊x⌋
  let frac := x - f
  if frac < 1/2 then f
  else if 1/2 < frac then f + 1
  else if f % 2 = 0 then f else f + 1

/-- Python `round(x, 2)`. -/
def round2 (x : ℚ) : ℚ :=
  (roundHalfEven (x * 100) : ℚ) / 100

/-- One `footprint` row (lines 461-470). -/
structure FootRow where
  time : ℤ
  delta : ℚ
  volume : ℚ
  exchanges : ℕ
  confidence : ℚ
  divergence : Bool
  highValueDivergence : Bool
  volumeMultiple : ℚ
deriving DecidableEq

/-- One `cvd_data` row (lines 473-479). -/
structure CvdRow where
  time : ℤ
  value : ℚ
  delta : ℚ
  color : String
  confidence : ℚ
deriving DecidableEq

/-- One `orderflow_table` row (lines 481-492). -/
structure TableRow where
  time : ℤ
  buyVol : ℚ
  sellVol : ℚ
  delta : ℚ
  volume : ℚ
  exchanges : ℕ
  confidence : ℚ
  divergence : Bool
  highValueDivergence : Bool
  volumeMultiple : ℚ
deriving DecidableEq

/-- One `divergence_alerts` entry (lines 494-501). -/
structure Alert where
  time : ℤ
  alert_type : String
  volumeMultiple : ℚ
  cvdDirection : String
  deltaSign : String
deriving DecidableEq

/-- The four output arrays accumulated by the main loop. -/
structure BuiltArrays where
  footprint : List FootRow
  cvd : List CvdRow
  orderflowTable : List TableRow
  divergences : List Alert
deriving DecidableEq

/-- The main output loop of `analyze_multi_exchange_orderflow` (lines
443-503), as structural recursion over the sorted aggregated rows.  The two
state variables are `cumulative_delta` and `prev_cvd` (both 0 before the
first row); at the end of each iteration `prev_cvd` is set to the new
`cumulative_delta`, so both recursive arguments advance to `cumulative`. -/
def buildRows (avg_volume : ℚ) :
    List (ℤ × BucketRow) → ℚ → ℚ → BuiltArrays
  | [], _, _ => ⟨[], [], [], []⟩
  | (timestamp, data) :: rest, cumulative_prev, prev_cvd =>
    let delta := data.delta
    let cumulative := cumulative_prev + delta
    let cvd_rising := decide (prev_cvd < cumulative)
    let cvd_dropping := decide (cumulative < prev_cvd)
    let delta_positive := decide (0 < delta)
    let delta_negative := decide (delta < 0)
    let has_divergence := (cvd_rising && delta_negative) || (cvd_dropping && delta_positive)
    let volume_multiple := if 0 < avg_volume then data.volume / avg_volume else 0
    let is_high_value := has_divergence && decide ((3/2 : ℚ) ≤ volume_multiple)
    let is_increasing := decide (prev_cvd < cumulative)
    let rec_result := buildRows avg_volume rest cumulative cumulative
    { footprint :=
        { time := timestamp
          delta := delta
          volume := data.volume
          exchanges := data.exchange_count
          confidence := data.confidence
          divergence := has_divergence
          highValueDivergence := is_high_value
          volumeMultiple := round2 volume_multiple } :: rec_result.footprint
      cvd :=
        { time := timestamp
          value := cumulative
          delta := delta
          color := if is_increasing then "green" else "red"
          confidence := data.confidence } :: rec_result.cvd
      orderflowTable :=
        { time := timestamp
          buyVol := data.buy_volume
          sellVol := data.sell_volume
          delta := delta
          volume := data.volume
          exchanges := data.exchange_count
          confidence := data.confidence
          divergence := has_divergence
          highValueDivergence := is_high_value
          volumeMultiple := round2 volume_multiple } :: rec_result.orderflowTable
      divergences :=
        (if has_divergence then
          [{ time := timestamp
             alert_type := if is_high_value then "high_value" else "normal"
             volumeMultiple := round2 volume_multiple
             cvdDirection := if cvd_rising then "rising" else "dropping"
             deltaSign := if delta_positive then "positive" else "negative" }]
         else []) ++ rec_result.divergences }

/-- `avg_volume` (lines 440-441): `statistics.mean(all_volumes) if
all_volumes else 0`. -/
def avgVolume (vols : List ℚ) : ℚ :=
  if vols.isEmpty then 0 else meanQ vols

/-- One venue's outcome of the fetch fan-out phase (lines 398-418): the
exchange id, the candles it returned, and its metadata.  The source runs
six fixed fetches; the embedding abstracts the phase as the list of their
results. -/
structure VenueResult where
  exchange_id : String
  candles : List Candle
  metadata : FetchMeta
deriving DecidableEq

/-- The successful-run output object (lines 508-521). -/
structure Output where
  footprint : List FootRow
  cvd : List CvdRow
  orderflowTable : List TableRow
  divergences : List Alert
  metadata_exchanges : List FetchMeta
  success_rate : ℚ
  avg_response_time_ms : ℚ
  total_candles : ℕ
deriving DecidableEq

/-- Result of a run: either the quorum-failure error object (lines 421-424,
carrying the error string and every venue's metadata) or the aggregate
output. -/
inductive AnalysisResult where
  | errorResult (error : String) (metadata : List FetchMeta)
  | ok (out : Output)
deriving DecidableEq

/-- Whether a run produced an aggregate result. -/
def AnalysisResult.isOk : AnalysisResult → Bool
  | .errorResult _ _ => false
  | .ok _ => true

/-- The quorum-failure message (line 422). -/
def insufficientMsg (n : ℕ) : String :=
  "Insufficient exchanges responding (got " ++ toString n ++ ", need " ++
    toString MIN_EXCHANGES_REQUIRED ++ ")"

/-- The post-quorum assembly (lines 426-530): aggregate, compute the
average bucket volume, run the main output loop from zeroed CVD state, and
attach run diagnostics. -/
def buildOutput (all_exchange_data : List (String × List Candle))
    (all_metadata : List FetchMeta) : Output :=
  let aggregated := aggregate_multi_exchange_data all_exchange_data
  let avg_volume := avgVolume (aggregated.map (fun p => p.2.volume))
  let arrays := buildRows avg_volume aggregated 0 0
  { footprint := arrays.footprint
    cvd := arrays.cvd
    orderflowTable := arrays.orderflowTable
    divergences := arrays.divergences
    metadata_exchanges := all_metadata
    success_rate :=
      ((all_metadata.filter (fun m => m.success)).length : ℚ) / (all_metadata.length : ℚ)
    avg_response_time_ms := meanQ (all_metadata.map (fun m => m.response_time_ms))
    total_candles := arrays.footprint.length }

/-- `analyze_multi_exchange_orderflow` after the fetch fan-out (lines
398-530): venues whose fetch succeeded enter `all_exchange_data` (keyed by
exchange id, in fetch order); if fewer than `MIN_EXCHANGES_REQUIRED`
succeeded the run fails with the quorum error carrying every venue's
metadata, otherwise the aggregate output is produced. -/
def analyzeCore (results : List VenueResult) : AnalysisResult :=
  let all_exchange_data :=
    (results.filter (fun r => r.metadata.success)).map (fun r => (r.exchange_id, r.candles))
  let all_metadata := results.map (fun r => r.metadata)
  if all_exchange_data.length < MIN_EXCHANGES_REQUIRED then
    .errorResult (insufficientMsg all_exchange_data.length) all_metadata
  else
    .ok (buildOutput all_exchange_data all_metadata)

/-- One trade row of the Binance aggTrades feed (`binance_orderflow.py`):
`T` (ms timestamp), price `p`, quantity `q`, `m` (buyer-is-maker flag). -/
structure Trade where
  T : ℤ
  p : ℚ
  q : ℚ
  m : Bool
deriving DecidableEq

/-- `candle_start = (timestamp // interval_ms) * interval_ms`
(binance_orderflow.py line 161). -/
def bucketStartOf (timestamp interval_ms : ℤ) : ℤ :=
  (Int.fdiv timestamp interval_ms) * interval_ms

/-- The bucket keys of `build_footprint_from_trades` (binance_orderflow.py
lines 159-170): each trade is filed under its floor-aligned candle start,
and the candles are visited in sorted key order (set semantics via
`dedup`). -/
def footprintBucketKeys (trades : List Trade) (interval_ms : ℤ) : List ℤ :=
  sortInts ((trades.map (fun tr => bucketStartOf tr.T interval_ms)).dedup)

/-- One CVD point of the trade-level variant (`calculate_cvd_from_candles`,
binance_orderflow.py lines 205-231). -/
structure CvdPointB where
  time : ℤ
  value : ℚ
  delta : ℚ
  color : String
deriving DecidableEq

/-- The loop body of `calculate_cvd_from_candles` (lines 212-229):
`cumulative_delta` and `prev_cvd` both start at 0, each row adds its delta,
and the color is green exactly when the running sum strictly rose. Input
rows are (time, Delta) pairs of the candle frame. -/
def calcCvdLoop : List (ℤ × ℚ) → ℚ → ℚ → List CvdPointB
  | [], _, _ => []
  | (t, delta) :: rest, cumulative_prev, prev_cvd =>
    let cumulative := cumulative_prev + delta
    let is_increasing := decide (prev_cvd < cumulative)
    { time := t
      value := cumulative
      delta := delta
      color := if is_increasing then "green" else "red" } :: calcCvdLoop rest cumulative cumulative

/-- `calculate_cvd_from_candles` (binance_orderflow.py lines 205-231). -/
def calculate_cvd_from_candles (rows : List (ℤ × ℚ)) : List CvdPointB :=
  calcCvdLoop rows 0 0

/-- Example raw OHLCV row with a given timestamp (volume 10, flat prices). -/
def mkRaw (t : ℤ) : RawOhlcv :=
  { timestamp := t, openP := 1, highP := 1, lowP := 1, closeP := 1, vol? := some 10 }

/-- A nine-sample series (interval-spaced timestamps). -/
def nineOhlcv : List RawOhlcv :=
  [mkRaw 900000, mkRaw 1800000, mkRaw 2700000, mkRaw 3600000, mkRaw 4500000,
   mkRaw 5400000, mkRaw 6300000, mkRaw 7200000, mkRaw 8100000]

/-- A ten-sample series. -/
def tenOhlcv : List RawOhlcv :=
  nineOhlcv ++ [mkRaw 9000000]

/-- Attempt sequence of a venue that fails transport twice, then would
succeed with ten valid samples on the third attempt. -/
def c2Attempts : List (Except String (List RawOhlcv)) :=
  [.error "timeout", .error "timeout", .ok tenOhlcv]

/-- C2 counterexample: the per-venue fetch makes no retries — against a
venue whose transport fails twice and would succeed on the third attempt,
the fetch consumes only the first attempt and returns `success = false`
with `data_quality = "error"`, contradicting the claimed
`retries = 2, success = true` outcome (no retry counter exists at all). -/
theorem c2_counterexample_no_retry :
    (fetchWithOracle "gateio" c2Attempts).2.success = false ∧
    (fetchWithOracle "gateio" c2Attempts).2.data_quality = "error" ∧
    (fetchWithOracle "gateio" c2Attempts).2.error = some "timeout" := by
  refine ⟨rfl, rfl, rfl⟩

/-- C2 amended: on a transport/timeout error the per-venue fetch does not
retry — it makes exactly one attempt and immediately returns
`success = false`, `data_quality = "error"` and the error message, and a
fetch run against any attempt sequence consults only the first attempt. -/
theorem c2_amended_single_attempt (exchange_id e : String)
    (a : Except String (List RawOhlcv)) (rest : List (Except String (List RawOhlcv))) :
    (fetch_ohlcv_from_exchange exchange_id (.error e)).2.success = false ∧
    (fetch_ohlcv_from_exchange exchange_id (.error e)).2.data_quality = "error" ∧
    (fetch_ohlcv_from_exchange exchange_id (.error e)).2.error = some e ∧
    fetchWithOracle exchange_id (a :: rest) = fetch_ohlcv_from_exchange exchange_id a := by
  refine ⟨rfl, rfl, rfl, rfl⟩

/-- C3 counterexample: a venue returning 9 samples is accepted, not
rejected — the fetch declares `success = true` with
`data_quality = "valid"` (there is no minimum-sample validation in the
code; only an empty series is rejected). -/
theorem c3_counterexample_nine_accepted :
    nineOhlcv.length = 9 ∧
    (fetch_ohlcv_from_exchange "gateio" (.ok nineOhlcv)).2.success = true ∧
    (fetch_ohlcv_from_exchange "gateio" (.ok nineOhlcv)).2.data_quality = "valid" := by
  refine ⟨rfl, rfl, rfl⟩

/-- C3 amended: after a successful transport the fetch rejects only an
empty series (`success = false`, `data_quality = "empty"`); every
non-empty series — 9 samples included — is accepted with
`success = true` and `data_quality = "valid"`. -/
theorem c3_amended_empty_only (exchange_id : String) (ohlcv : List RawOhlcv) :
    if 0 < ohlcv.length then
      (fetch_ohlcv_from_exchange exchange_id (.ok ohlcv)).2.success = true ∧
      (fetch_ohlcv_from_exchange exchange_id (.ok ohlcv)).2.data_quality = "valid"
    else
      (fetch_ohlcv_from_exchange exchange_id (.ok ohlcv)).2.success = false ∧
      (fetch_ohlcv_from_exchange exchange_id (.ok ohlcv)).2.data_quality = "empty" := by
  by_cases h : 0 < ohlcv.length <;> simp [fetch_ohlcv_from_exchange, h]

/-- C7 counterexample: for the input "btc-eur" (quote suffix neither USDT
nor USD) the normalizer returns the uppercased, dash-stripped string
"BTCEUR", not the original input unchanged. -/
theorem c7_counterexample_fallback :
    normalize_symbol "btc-eur" "kraken" = "BTCEUR" ∧
    ("BTCEUR" : String) ≠ "btc-eur" := by
  refine ⟨by decide, by decide⟩

/-- C7 amended: for every input whose uppercased, dash-stripped form ends
with neither USDT nor USD, the normalizer returns that uppercased,
dash-stripped form for every venue (so the original string comes back
unchanged only when it is already uppercase and dash-free). -/
theorem c7_amended_fallback (symbol exchange_id : String)
    (h1 : endsWithStr (upperNoDash symbol) "USDT" = false)
    (h2 : endsWithStr (upperNoDash symbol) "USD" = false) :
    normalize_symbol symbol exchange_id = upperNoDash symbol := by
  unfold normalize_symbol
  simp [h1, h2]

/-- C7 witness: the amended fallback at the concrete input "btc-eur". -/
theorem c7_fallback_witness :
    endsWithStr (upperNoDash "btc-eur") "USDT" = false ∧
    endsWithStr (upperNoDash "btc-eur") "USD" = false ∧
    normalize_symbol "btc-eur" "kucoin" = upperNoDash "btc-eur" :=
  ⟨by decide, by decide, c7_amended_fallback "btc-eur" "kucoin" (by decide) (by decide)⟩

/-- Example candle with a given timestamp and buy/sell volumes (delta is
their difference, volume their sum, flat prices). -/
def mkCandle (t : ℤ) (buy sell : ℚ) : Candle :=
  { timestamp := t, openP := 1, highP := 1, lowP := 1, closeP := 1,
    volume := buy + sell, buy_volume := buy, sell_volume := sell,
    delta := buy - sell }

/-- The spec's end-to-end example: one bucket, three venues with deltas
5, 5, -40 and priorities 1.0, 0.9, 0.8. -/
def c1Data : List (String × List Candle) :=
  [("binanceus", [mkCandle 900 (15/2) (5/2)]),
   ("okx", [mkCandle 900 (15/2) (5/2)]),
   ("kraken", [mkCandle 900 0 40])]


/-- C1: the consensus delta is NOT the priority-weighted mean.  On the
spec's own example (deltas 5, 5, -40; priorities 1.0, 0.9, 0.8) the code
divides the priority-weighted sum by the participant COUNT, yielding
(5·1.0 + 5·0.9 - 40·0.8)/3 = -7.5, whereas the claimed formula
Σ(delta·priority)/Σpriority yields -25/3 ≈ -8.33 (and the claim's
quoted figure -9.26 matches neither); the code computes the total
priority weight and then never uses it, contradicting its own
"Normalize delta by total priority weight" comment. -/
theorem c1_weighted_delta_divisor :
    ((aggregate_multi_exchange_data c1Data).map (fun p => p.2.delta)) = [-(15/2 : ℚ)] ∧
    (-(15/2 : ℚ)) ≠ (5 * 1 + 5 * (9/10) + (-40) * (8/10)) / (1 + 9/10 + 8/10) := by
  constructor
  · simp only [aggregate_multi_exchange_data, collectTimestamps, sortInts, insertSorted,
      bucketRow, bucketHits, normTs, priorityOf, lookupExchange, EXCHANGES, nameOf,
      mkCandle, c1Data, List.find?, List.map_cons, List.map_nil, List.flatten,
      List.dedup_cons_of_mem, List.dedup_cons_of_not_mem,
      List.filterMap_cons, List.filterMap_nil, Option.map_some', Option.map_none',
      Option.getD_some, List.isEmpty, String.reduceEq, decide_False, decide_True]
    norm_num
  · norm_num

/-- A venue result that succeeded with one candle. -/
def c4Success (id : String) : VenueResult :=
  { exchange_id := id, candles := [mkCandle 900 6 4],
    metadata := ⟨nameOf id, id, true, 1, none, 0, "valid"⟩ }

/-- A venue result whose transport failed. -/
def c4Failure (id : String) : VenueResult :=
  { exchange_id := id, candles := [],
    metadata := ⟨nameOf id, id, false, 0, some "timeout", 0, "error"⟩ }

/-- A run in which exactly one of two venues succeeded. -/
def c4OneSuccess : List VenueResult := [c4Success "binanceus", c4Failure "okx"]

/-- A run in which exactly two venues succeeded. -/
def c4TwoSuccess : List VenueResult := [c4Success "binanceus", c4Success "okx"]

/-- C4: quorum policy — for every run, fewer than 2 successful venues
fails the run with the quorum error carrying every venue's metadata, and
at least 2 successful venues produces an aggregate result; in particular
a run with exactly 1 successful venue fails and one with exactly 2
succeeds. -/
theorem c4_quorum_policy :
    (∀ results : List VenueResult,
      if (results.filter (fun r => r.metadata.success)).length < MIN_EXCHANGES_REQUIRED
      then analyzeCore results =
             .errorResult
               (insufficientMsg (results.filter (fun r => r.metadata.success)).length)
               (results.map (fun r => r.metadata))
      else (analyzeCore results).isOk = true) ∧
    analyzeCore c4OneSuccess =
      .errorResult (insufficientMsg 1) (c4OneSuccess.map (fun r => r.metadata)) ∧
    (analyzeCore c4TwoSuccess).isOk = true := by
  refine ⟨?_, ?_, rfl⟩
  · intro results
    unfold analyzeCore
    simp only [List.length_map]
    split
    · rfl
    · rfl
  · rfl

/-- Membership in an ordered insertion comes from the inserted element or
the original list. -/
lemma mem_insertSorted {a x : ℤ} : ∀ {l : List ℤ}, a ∈ insertSorted x l → a = x ∨ a ∈ l := by
  intro l
  induction l with
  | nil =>
    intro h
    simp only [insertSorted, List.mem_singleton] at h
    exact Or.inl h
  | cons y ys ih =>
    intro h
    simp only [insertSorted] at h
    split at h
    · rcases List.mem_cons.mp h with h1 | h2
      · exact Or.inl h1
      · exact Or.inr h2
    · rcases List.mem_cons.mp h with h1 | h2
      · exact Or.inr (List.mem_cons.mpr (Or.inl h1))
      · rcases ih h2 with h3 | h4
        · exact Or.inl h3
        · exact Or.inr (List.mem_cons.mpr (Or.inr h4))

/-- Sorting introduces no new elements. -/
lemma mem_sortInts {a : ℤ} : ∀ {l : List ℤ}, a ∈ sortInts l → a ∈ l := by
  intro l
  induction l with
  | nil =>
    intro h
    simp [sortInts] at h
  | cons x xs ih =>
    intro h
    simp only [sortInts] at h
    rcases mem_insertSorted h with h1 | h2
    · simp [h1]
    · exact List.mem_cons.mpr (Or.inr (ih h2))

/-- A single venue reporting a candle at second-timestamp 905, not aligned
to the 900-second (15m) bar interval. -/
def c8Data : List (String × List Candle) :=
  [("binanceus", [mkCandle 905 6 4])]

/-- C8 counterexample: the multi-exchange aggregation keys its buckets by
the venue-reported candle timestamps without re-aligning them — a candle
at timestamp 905 produces the bucket key 905, and 905 mod 900 ≠ 0, so the
aggregation's bucket keys are not in general aligned to the bar interval. -/
theorem c8_counterexample_unaligned :
    (aggregate_multi_exchange_data c8Data).map Prod.fst = [(905 : ℤ)] ∧
    ¬ ((905 : ℤ) % 900 = 0) := by
  constructor
  · simp only [aggregate_multi_exchange_data, collectTimestamps, sortInts, insertSorted,
      bucketRow, bucketHits, normTs, c8Data, mkCandle, List.find?, List.map_cons, List.map_nil,
      List.flatten, List.dedup_cons_of_not_mem, List.dedup_nil,
      List.filterMap_cons, List.filterMap_nil, Option.map_some',
      Option.getD_some, List.isEmpty]
    norm_num
  · decide

/-- C8 amended: bucket keys built from trades are interval-aligned — in
`build_footprint_from_trades` every bucket key is
`floor(timestamp / intervalMs) * intervalMs`, hence divisible by the
interval; the multi-exchange aggregation instead keys buckets by raw
venue-reported candle timestamps (normalized to seconds), which are
aligned only if the venues report aligned timestamps. -/
theorem c8_amended_trade_alignment (trades : List Trade) (interval_ms t : ℤ)
    (h : t ∈ footprintBucketKeys trades interval_ms) : t % interval_ms = 0 := by
  unfold footprintBucketKeys at h
  have h1 := mem_sortInts h
  have h2 := List.mem_dedup.mp h1
  rw [List.mem_map] at h2
  obtain ⟨tr, _, rfl⟩ := h2
  unfold bucketStartOf
  exact Int.mul_emod_left _ _

/-- A single trade at millisecond timestamp 1000. -/
def c8Trades : List Trade := [⟨1000, 1, 1, false⟩]

/-- C8 witness: the amended alignment theorem applied to a concrete trade
list with a 900 ms interval. -/
theorem c8_alignment_witness :
    (900 : ℤ) ∈ footprintBucketKeys c8Trades 900 ∧ (900 : ℤ) % 900 = 0 :=
  ⟨by decide, c8_amended_trade_alignment c8Trades 900 900 (by decide)⟩

/-- Squared form of the coefficient-of-variation test: for a nonzero mean,
`threshold² · mean² < sampleVar` holds exactly when
`threshold < stdev / |mean|` holds over the reals. -/
lemma cv_sq_iff (m v : ℚ) (hm : m ≠ 0) :
    (DIVERGENCE_THRESHOLD^2 * m^2 < v) ↔
      ((1/5 : ℝ) < Real.sqrt (v : ℝ) / |(m : ℝ)|) := by
  have hM : (0:ℝ) < |(m:ℝ)| := abs_pos.mpr (by exact_mod_cast hm)
  rw [lt_div_iff₀ hM, Real.lt_sqrt (by positivity), mul_pow, sq_abs]
  rw [show ((1:ℝ)/5)^2 * (m:ℝ)^2 = ((DIVERGENCE_THRESHOLD^2 * m^2 : ℚ) : ℝ) by
    unfold DIVERGENCE_THRESHOLD
    push_cast
    ring]
  exact (Rat.cast_lt (K := ℝ)).symm

/-- Every row of the aggregation is a `bucketRow` at its own key. -/
lemma aggregate_mem_bucketRow {data : List (String × List Candle)} {tr : ℤ × BucketRow}
    (h : tr ∈ aggregate_multi_exchange_data data) : bucketRow data tr.1 = some tr.2 := by
  unfold aggregate_multi_exchange_data at h
  rw [List.mem_filterMap] at h
  obtain ⟨t, _, hmap⟩ := h
  rw [Option.map_eq_some'] at hmap
  obtain ⟨r, hr, rfl⟩ := hmap
  exact hr

/-- C5: the cross-venue divergence flag is false for fewer than two
participating deltas and for a zero mean, and otherwise true exactly when
the coefficient of variation stdev/|mean| strictly exceeds 0.20; the
boundary case (deltas 4, 5, 6 with CV exactly 0.20) is false; and every
aggregated bucket row carries exactly this flag computed over its
participating venues' deltas. -/
theorem c5_cross_venue_divergence :
    (∀ deltas : List ℚ,
      hasDivergenceOf deltas = true ↔
        2 ≤ deltas.length ∧ meanQ deltas ≠ 0 ∧
          (1/5 : ℝ) < Real.sqrt ((sampleVar deltas : ℚ) : ℝ) / |((meanQ deltas : ℚ) : ℝ)|) ∧
    hasDivergenceOf [4, 5, 6] = false ∧
    (∀ data : List (String × List Candle),
      ((aggregate_multi_exchange_data data).all
        (fun r => r.2.has_divergence == hasDivergenceOf (r.2.exchanges.map (fun e => e.delta)))) = true) := by
  refine ⟨?_, ?_, ?_⟩
  · intro deltas
    by_cases h2 : 2 ≤ deltas.length
    · by_cases hm : meanQ deltas = 0
      · simp [hasDivergenceOf, h2, hm]
      · unfold hasDivergenceOf
        rw [if_pos h2, if_pos hm, decide_eq_true_eq, cv_sq_iff _ _ hm]
        simp [h2, hm]
    · simp [hasDivergenceOf, h2]
  · norm_num [hasDivergenceOf, meanQ, sampleVar, DIVERGENCE_THRESHOLD,
      decide_eq_false_iff_not]
  · intro data
    rw [List.all_eq_true]
    intro tr htr
    have h := aggregate_mem_bucketRow htr
    unfold bucketRow at h
    by_cases he : (bucketHits data tr.1).isEmpty
    · rw [if_pos he] at h
      cases h
    · rw [if_neg he] at h
      have h2 := Option.some.inj h
      rw [← h2]
      simp only [List.map_map, beq_iff_eq]
      rfl

/-- Chain property of a CVD series: each point's value is the previous
running sum plus its delta (seed `prev`), colored green exactly on a
strict rise and red otherwise (ties red). -/
def cvdChain (prev : ℚ) : List CvdRow → Prop
  | [] => True
  | p :: rest =>
      p.value = prev + p.delta ∧ (p.color = "green" ↔ prev < p.value) ∧
        (p.color = "red" ↔ ¬ prev < p.value) ∧ cvdChain p.value rest

/-- Chain property for the trade-level CVD series. -/
def cvdChainB (prev : ℚ) : List CvdPointB → Prop
  | [] => True
  | p :: rest =>
      p.value = prev + p.delta ∧ (p.color = "green" ↔ prev < p.value) ∧
        (p.color = "red" ↔ ¬ prev < p.value) ∧ cvdChainB p.value rest

/-- The consensus output loop satisfies the CVD chain property from any
seed (the loop keeps `prev_cvd` equal to the running sum). -/
lemma cvdChain_buildRows (avg : ℚ) :
    ∀ (rows : List (ℤ × BucketRow)) (c : ℚ), cvdChain c (buildRows avg rows c c).cvd := by
  intro rows
  induction rows with
  | nil =>
    intro c
    exact trivial
  | cons hd tl ih =>
    intro c
    obtain ⟨t, row⟩ := hd
    refine ⟨rfl, ?_, ?_, ih (c + row.delta)⟩
    · by_cases hlt : c < c + row.delta
      · simp [buildRows, hlt]
      · simp [buildRows, hlt]
    · by_cases hlt : c < c + row.delta
      · simp [buildRows, hlt]
      · simp [buildRows, hlt]

/-- The trade-level CVD loop satisfies the chain property from any seed. -/
lemma cvdChainB_calcCvdLoop :
    ∀ (rows : List (ℤ × ℚ)) (c : ℚ), cvdChainB c (calcCvdLoop rows c c) := by
  intro rows
  induction rows with
  | nil =>
    intro c
    exact trivial
  | cons hd tl ih =>
    intro c
    obtain ⟨t, delta⟩ := hd
    refine ⟨rfl, ?_, ?_, ih (c + delta)⟩
    · by_cases hlt : c < c + delta
      · simp [calcCvdLoop, hlt]
      · simp [calcCvdLoop, hlt]
    · by_cases hlt : c < c + delta
      · simp [calcCvdLoop, hlt]
      · simp [calcCvdLoop, hlt]

/-- C6: the CVD fold — in both the consensus pipeline and the trade-level
variant, each point's cumulative value equals the previous cumulative
value plus the row's delta with the running sum seeded at 0, and a point
is green exactly when the cumulative value strictly rose (ties red). -/
theorem c6_cvd_fold :
    (∀ (rows : List (ℤ × BucketRow)) (avg_volume : ℚ),
      cvdChain 0 (buildRows avg_volume rows 0 0).cvd) ∧
    (∀ rows : List (ℤ × ℚ), cvdChainB 0 (calculate_cvd_from_candles rows)) :=
  ⟨fun rows avg_volume => cvdChain_buildRows avg_volume rows 0,
   fun rows => cvdChainB_calcCvdLoop rows 0⟩

/-- The CVD/delta divergence condition is unsatisfiable when the running
sum moves by exactly the row's delta. -/
lemma divergence_flag_false (c δ : ℚ) :
    ((decide (c < c + δ) && decide (δ < 0)) ||
     (decide (c + δ < c) && decide (0 < δ))) = false := by
  by_cases h : 0 < δ
  · have h1 : ¬ c + δ < c := by linarith
    have h2 : ¬ δ < 0 := by linarith
    simp [h1, h2]
  · have h2 : ¬ c < c + δ := by
      intro hlt
      apply h
      linarith
    simp [h2, h]

/-- The output loop never sets a divergence flag and emits no alerts, from
any seed with equal running-sum state. -/
lemma buildRows_no_divergence (avg : ℚ) :
    ∀ (rows : List (ℤ × BucketRow)) (c : ℚ),
      (buildRows avg rows c c).divergences = [] ∧
      ((buildRows avg rows c c).footprint.all
        (fun p => !p.divergence && !p.highValueDivergence)) = true ∧
      ((buildRows avg rows c c).orderflowTable.all
        (fun r => !r.divergence && !r.highValueDivergence)) = true := by
  intro rows
  induction rows with
  | nil =>
    intro c
    exact ⟨rfl, rfl, rfl⟩
  | cons hd tl ih =>
    intro c
    obtain ⟨t, row⟩ := hd
    obtain ⟨ih1, ih2, ih3⟩ := ih (c + row.delta)
    rcases lt_trichotomy row.delta 0 with h | h | h
    · simp [buildRows, ih1, ih2, ih3, h, (show ¬ c < c + row.delta by linarith),
        (show c + row.delta < c by linarith), (show ¬ (0:ℚ) < row.delta by linarith)]
    · rw [h, add_zero] at ih1 ih2 ih3
      simp [buildRows, ih1, ih2, ih3, h]
    · simp [buildRows, ih1, ih2, ih3, h, (show c < c + row.delta by linarith),
        (show ¬ c + row.delta < c by linarith), (show ¬ row.delta < (0:ℚ) by linarith)]

/-- Whether a run's result is free of CVD/delta divergence reports. -/
def resultHasNoDivergence : AnalysisResult → Bool
  | .errorResult _ _ => true
  | .ok out =>
      out.divergences.isEmpty &&
      out.footprint.all (fun p => !p.divergence && !p.highValueDivergence) &&
      out.orderflowTable.all (fun r => !r.divergence && !r.highValueDivergence)

/-- The assembled output of any post-quorum run carries no divergence. -/
lemma output_no_divergence (data : List (String × List Candle)) (md : List FetchMeta) :
    (buildOutput data md).divergences = [] ∧
    ((buildOutput data md).footprint.all
      (fun p => !p.divergence && !p.highValueDivergence)) = true ∧
    ((buildOutput data md).orderflowTable.all
      (fun r => !r.divergence && !r.highValueDivergence)) = true := by
  unfold buildOutput
  exact buildRows_no_divergence _ _ 0

/-- C9: the CVD/delta divergence flag is always false in exact arithmetic
— the output loop's alert list is empty and no footprint or
orderflow-table entry carries a (high-value) divergence flag, both for the
loop from its zeroed seed and for the full analysis result of every run. -/
theorem c9_no_cvd_delta_divergence :
    (∀ (rows : List (ℤ × BucketRow)) (avg_volume : ℚ),
      (buildRows avg_volume rows 0 0).divergences = [] ∧
      ((buildRows avg_volume rows 0 0).footprint.all
        (fun p => !p.divergence && !p.highValueDivergence)) = true ∧
      ((buildRows avg_volume rows 0 0).orderflowTable.all
        (fun r => !r.divergence && !r.highValueDivergence)) = true) ∧
    (∀ results : List VenueResult, resultHasNoDivergence (analyzeCore results) = true) := by
  constructor
  · intro rows avg_volume
    exact buildRows_no_divergence avg_volume rows 0
  · intro results
    simp only [analyzeCore]
    split
    · rfl
    · simp only [resultHasNoDivergence]
      rw [(output_no_divergence _ _).1, (output_no_divergence _ _).2.1,
        (output_no_divergence _ _).2.2]
      rfl

/-- If every candle of every venue has zero delta, so does every bucket
hit. -/
lemma bucketHits_all_delta_zero {data : List (String × List Candle)}
    (hz : ∀ p ∈ data, ∀ c ∈ p.2, c.delta = 0) (t : ℤ) :
    ∀ pc ∈ bucketHits data t, pc.2.delta = 0 := by
  intro pc hpc
  unfold bucketHits at hpc
  rw [List.mem_filterMap] at hpc
  obtain ⟨p, hp, hmap⟩ := hpc
  rw [Option.map_eq_some'] at hmap
  obtain ⟨c, hfind, rfl⟩ := hmap
  exact hz p hp c (List.mem_of_find?_eq_some hfind)

/-- C10: every candle parsed on the generic ccxt path carries
`buy_volume = sell_volume = volume · 0.5` and hence `delta = 0`
(independently of any venue flag, which the path never reads); and when
every venue's series comes from this path, each aggregated bucket's
per-venue delta map holds only zeros and the consensus delta itself is 0. -/
theorem c10_ccxt_half_split :
    (∀ rs : List RawOhlcv,
      ((parse_ccxt_candles rs).all
        (fun c => (c.buy_volume == c.volume * (1/2)) &&
                  (c.sell_volume == c.volume * (1/2)) && (c.delta == 0))) = true) ∧
    (∀ data : List (String × List RawOhlcv),
      ((aggregate_multi_exchange_data (data.map (fun p => (p.1, parse_ccxt_candles p.2)))).all
        (fun r => (r.2.deltas.all (fun d => d.2 == 0)) && (r.2.delta == 0))) = true) := by
  constructor
  · intro rs
    rw [List.all_eq_true]
    intro c hc
    unfold parse_ccxt_candles at hc
    rw [List.mem_map] at hc
    obtain ⟨r, _, rfl⟩ := hc
    simp [parse_ccxt_candle]
  · intro data
    rw [List.all_eq_true]
    intro tr htr
    have hz : ∀ p ∈ data.map (fun p => (p.1, parse_ccxt_candles p.2)), ∀ c ∈ p.2, c.delta = 0 := by
      intro p hp c hc
      rw [List.mem_map] at hp
      obtain ⟨q, _, rfl⟩ := hp
      unfold parse_ccxt_candles at hc
      rw [List.mem_map] at hc
      obtain ⟨r, _, rfl⟩ := hc
      simp [parse_ccxt_candle]
    have hzero := bucketHits_all_delta_zero hz tr.1
    have h := aggregate_mem_bucketRow htr
    unfold bucketRow at h
    by_cases he : (bucketHits (data.map fun p => (p.1, parse_ccxt_candles p.2)) tr.1).isEmpty
    · rw [if_pos he] at h
      cases h
    · rw [if_neg he] at h
      have h2 := Option.some.inj h
      rw [← h2]
      simp only [Bool.and_eq_true, List.all_eq_true, beq_iff_eq]
      constructor
      · intro d hd
        rw [List.mem_map] at hd
        obtain ⟨pc, hpc, rfl⟩ := hd
        exact hzero pc hpc
      · have hsum : (List.map (fun pc => pc.2.delta * priorityOf pc.1)
            (bucketHits (data.map fun p => (p.1, parse_ccxt_candles p.2)) tr.1)).sum = 0 := by
          apply List.sum_eq_zero
          intro x hx
          rw [List.mem_map] at hx
          obtain ⟨pc, hpc, rfl⟩ := hx
          rw [hzero pc hpc, zero_mul]
        show (List.map (fun pc => pc.2.delta * priorityOf pc.1)
            (bucketHits (data.map fun p => (p.1, parse_ccxt_candles p.2)) tr.1)).sum /
          ((bucketHits (data.map fun p => (p.1, parse_ccxt_candles p.2)) tr.1).length : ℚ) = 0
        rw [hsum, zero_div]
